import Mathlib

/-!
Shallow embedding of `src/examples/sample_c.c` and verification of its
specification.

The C program consists of four functions:

  int main()            -- calls calculate(10), display(result), asserts result > 0
  int calculate(int x)  -- assert(x > 0); temp = helper(x); result = temp * 2;
                           assert(result > x); return result
  int helper(int x)     -- result = x + 5; assert(result > x); return result
  void display(int v)   -- printf("Result: %d\n", v); assert(v >= 0)

C `int` is modelled as a mathematical integer with wrap-around arithmetic
modulo 2^32 applied at each arithmetic operation (`wrap32`).  A failed
`assert` aborts the process; we model an execution as a trace of observable
events (formatted prints to standard output, and the abort itself) paired
with an optional return value, `none` meaning the run aborted.
-/

namespace SampleC

/-- Observable events of a run: a formatted print to standard output, or a
process abort caused by a failed runtime assertion. -/
inductive Event where
  | print (s : String)
  | abort
deriving DecidableEq

/-- Wrap-around 32-bit two's-complement reduction: the representative of
`n` modulo `2^32` lying in `[-2^31, 2^31 - 1]`. -/
def wrap32 (n : Int) : Int :=
  (n + 2147483648) % 4294967296 - 2147483648

/-- Embedding of `helper` (sample_c.c lines 42-53):
`int result = x + 5; assert(result > x); return result;`. -/
def helper (x : Int) : List Event × Option Int :=
  let result := wrap32 (x + 5)
  if result > x then ([], some result) else ([Event.abort], none)

/-- Embedding of `calculate` (sample_c.c lines 26-40):
`assert(x > 0); int temp = helper(x); int result = temp * 2;
assert(result > x); return result;`. -/
def calculate (x : Int) : List Event × Option Int :=
  if x > 0 then
    match helper x with
    | (tr, some temp) =>
        let result := wrap32 (temp * 2)
        if result > x then (tr, some result) else (tr ++ [Event.abort], none)
    | (tr, none) => (tr, none)
  else ([Event.abort], none)

/-- Embedding of `display` (sample_c.c lines 55-64):
`printf("Result: %d\n", value); assert(value >= 0);`.  The print event is
emitted before the assertion is checked. -/
def display (value : Int) : List Event × Option Unit :=
  let tr := [Event.print ("Result: " ++ toString value ++ "\n")]
  if value ≥ 0 then (tr, some ()) else (tr ++ [Event.abort], none)

/-- Embedding of `main` (sample_c.c lines 12-24):
`int result = calculate(10); display(result); assert(result > 0); return 0;`. -/
def main : List Event × Option Int :=
  match calculate 10 with
  | (tr, some result) =>
      match display result with
      | (tr2, some _) =>
          if result > 0 then (tr ++ tr2, some 0)
          else (tr ++ tr2 ++ [Event.abort], none)
      | (tr2, none) => (tr ++ tr2, none)
  | (tr, none) => (tr, none)

/-- Two successive invocations of `calculate` on the same argument, with
their traces concatenated: used to state determinism and absence of
observable side effects. -/
def calcTwice (x : Int) : List Event × (Option Int × Option Int) :=
  let r1 := calculate x
  let r2 := calculate x
  (r1.1 ++ r2.1, (r1.2, r2.2))

/-- Whether a trace contains at least one print event. -/
def hasPrint (l : List Event) : Bool :=
  l.any fun e => match e with
    | Event.print _ => true
    | Event.abort => false

/- ### Characterisation lemmas -/

theorem wrap32_eq (n : Int) (h1 : -2147483648 ≤ n) (h2 : n ≤ 2147483647) :
    wrap32 n = n := by
  unfold wrap32
  omega

theorem helper_of_le (x : Int) (h1 : -2147483648 ≤ x) (h2 : x ≤ 2147483642) :
    helper x = ([], some (x + 5)) := by
  simp only [helper]
  rw [wrap32_eq (x + 5) (by omega) (by omega)]
  rw [if_pos (by omega)]

theorem helper_abort_of_ge (x : Int) (h : 2147483643 ≤ x) :
    helper x = ([Event.abort], none) := by
  simp only [helper]
  rw [if_neg (by unfold wrap32; omega)]

theorem calculate_of_le (x : Int) (h1 : 0 < x) (h2 : x ≤ 1073741818) :
    calculate x = ([], some ((x + 5) * 2)) := by
  simp only [calculate]
  rw [if_pos h1, helper_of_le x (by omega) (by omega)]
  simp only
  rw [wrap32_eq ((x + 5) * 2) (by omega) (by omega)]
  rw [if_pos (by omega)]

theorem calculate_of_mid (x : Int) (h1 : 1073741819 ≤ x) (h2 : x ≤ 2147483642) :
    calculate x = ([Event.abort], none) := by
  simp only [calculate]
  rw [if_pos (by omega), helper_of_le x (by omega) (by omega)]
  simp only
  rw [if_neg (by unfold wrap32; omega)]
  simp

theorem calculate_of_high (x : Int) (h : 2147483643 ≤ x) :
    calculate x = ([Event.abort], none) := by
  simp only [calculate]
  rw [if_pos (by omega), helper_abort_of_ge x h]

theorem calculate_of_nonpos (x : Int) (h : x ≤ 0) :
    calculate x = ([Event.abort], none) := by
  simp only [calculate]
  rw [if_neg (by omega)]

/- ### Claim theorems -/

/-- C1 (counterexample): the claim fails at `x = 2147483647` (INT_MAX): there
`x + 5` wraps around, helper's assertion fails and `calculate` aborts instead
of returning `(x + 5) * 2`. -/
theorem calculate_intmax_not_formula :
    ¬ calculate 2147483647 = ([], some ((2147483647 + 5) * 2)) := by decide

/-- C1 (amended): for every integer `x` with `0 < x ≤ 2^30 - 6` (so that
`(x + 5) * 2` does not overflow a 32-bit int), `calculate x` returns
`(x + 5) * 2` without any observable event. -/
theorem calculate_returns_formula (x : Int) (h1 : 0 < x) (h2 : x ≤ 1073741818) :
    calculate x = ([], some ((x + 5) * 2)) :=
  calculate_of_le x h1 h2

/-- C1 (witness): the amended theorem at `x = 10`. -/
theorem calculate_returns_formula_witness :
    0 < (10 : Int) ∧ (10 : Int) ≤ 1073741818 ∧ calculate 10 = ([], some 30) :=
  ⟨by decide, by decide, calculate_returns_formula 10 (by decide) (by decide)⟩

/-- C2: running the program with no arguments emits exactly the single print
event `Result: 30\n` and returns exit code 0. -/
theorem main_output_and_exit :
    main = ([Event.print "Result: 30\n"], some 0) := by decide

/-- C3 (counterexample): at `x = 2147483643`, `x + 5` overflows: `helper`
aborts (a side effect of the failed assertion) and does not return `x + 5`. -/
theorem helper_overflow_not_add_five :
    helper 2147483643 = ([Event.abort], none) ∧
      ¬ helper 2147483643 = ([], some (2147483643 + 5)) := by decide

/-- C3 (amended): for every valid 32-bit integer `x` with `x + 5` in range
(`x ≤ 2^31 - 6`), `helper x` returns `x + 5` with an empty trace, i.e. with
no side effects. -/
theorem helper_returns_add_five (x : Int) (h1 : -2147483648 ≤ x)
    (h2 : x ≤ 2147483642) : helper x = ([], some (x + 5)) :=
  helper_of_le x h1 h2

/-- C3 (witness): the amended theorem at `x = 7`. -/
theorem helper_returns_add_five_witness :
    -2147483648 ≤ (7 : Int) ∧ (7 : Int) ≤ 2147483642 ∧ helper 7 = ([], some 12) :=
  ⟨by decide, by decide, helper_returns_add_five 7 (by decide) (by decide)⟩

/-- C4: for every integer `x ≤ 0`, `calculate x` fails its precondition
assertion and aborts rather than returning a value. -/
theorem calculate_nonpos_aborts (x : Int) (h : x ≤ 0) :
    calculate x = ([Event.abort], none) :=
  calculate_of_nonpos x h

/-- C4 (witness): the theorem at `x = 0`. -/
theorem calculate_nonpos_aborts_witness :
    (0 : Int) ≤ 0 ∧ calculate 0 = ([Event.abort], none) :=
  ⟨by decide, calculate_nonpos_aborts 0 (by decide)⟩

/-- C5 (counterexample): at `x = 2147483644`, `x + 5` overflows and wraps to a
negative value, so helper's postcondition assertion `result > x` does fail and
the run aborts. -/
theorem helper_assert_fails_on_overflow :
    helper 2147483644 = ([Event.abort], none) ∧
      ¬ helper 2147483644 = ([], some (2147483644 + 5)) := by decide

/-- C5 (amended): for every valid 32-bit integer `x`, if `x + 5` does not
overflow (`x ≤ 2^31 - 6`) then helper's output exceeds its input and the
postcondition assertion succeeds; the assertion fails exactly when `x + 5`
overflows (`x ≥ 2^31 - 5`), which is the only possible failure. -/
theorem helper_gt_iff_no_overflow (x : Int) (h1 : -2147483648 ≤ x)
    (h2 : x ≤ 2147483647) :
    (x ≤ 2147483642 → helper x = ([], some (x + 5)) ∧ x + 5 > x) ∧
      (2147483643 ≤ x → helper x = ([Event.abort], none)) := by
  constructor
  · intro h
    exact ⟨helper_of_le x h1 h, by omega⟩
  · intro h
    exact helper_abort_of_ge x h

/-- C5 (witness): the amended theorem at `x = 1`. -/
theorem helper_gt_iff_no_overflow_witness :
    -2147483648 ≤ (1 : Int) ∧ (1 : Int) ≤ 2147483647 ∧
      (helper 1 = ([], some 6) ∧ (1 : Int) + 5 > 1) :=
  ⟨by decide, by decide,
    ((helper_gt_iff_no_overflow 1 (by decide) (by decide)).1 (by decide))⟩

/-- C6 (counterexample): at `x = 2^30 = 1073741824` (which satisfies
calculate's precondition `x > 0`) the nested `helper` call succeeds, yet
`temp * 2` overflows, so calculate's own postcondition assertion
`result > x` fails and its abort branch is taken. -/
theorem calculate_post_fails_at_pow30 :
    (helper 1073741824).2 = some 1073741829 ∧
      calculate 1073741824 = ([Event.abort], none) := by decide

/-- C6 (amended): for every integer `x` with `0 < x ≤ 2^30 - 6`, calculate's
postcondition assertion succeeds: the run has no abort event and returns a
result strictly greater than `x`. -/
theorem calculate_post_holds_of_bounded (x : Int) (h1 : 0 < x)
    (h2 : x ≤ 1073741818) :
    (calculate x).1 = [] ∧ (calculate x).2 = some ((x + 5) * 2) ∧ (x + 5) * 2 > x := by
  rw [calculate_of_le x h1 h2]
  exact ⟨rfl, rfl, by omega⟩

/-- C6 (witness): the amended theorem at `x = 5`. -/
theorem calculate_post_holds_of_bounded_witness :
    0 < (5 : Int) ∧ (5 : Int) ≤ 1073741818 ∧
      ((calculate 5).1 = [] ∧ (calculate 5).2 = some 20 ∧ (20 : Int) > 5) :=
  ⟨by decide, by decide, calculate_post_holds_of_bounded 5 (by decide) (by decide)⟩

/-- C7: for every negative argument, `display` emits the print event first
and only then does its postcondition check `value >= 0` fail and abort: the
output side effect occurs even on the violation. -/
theorem display_prints_before_abort (v : Int) (h : v < 0) :
    display v =
      ([Event.print ("Result: " ++ toString v ++ "\n"), Event.abort], none) := by
  simp only [display]
  rw [if_neg (by omega)]
  rfl

/-- C7 (witness): the theorem at `v = -1`: the line `Result: -1\n` is printed
and then the run aborts. -/
theorem display_prints_before_abort_witness :
    display (-1) = ([Event.print "Result: -1\n", Event.abort], none) := by
  rw [display_prints_before_abort (-1) (by decide)]
  decide

theorem calculate_trace_cases (x : Int) :
    (calculate x).1 = [] ∨ (calculate x).1 = [Event.abort] := by
  rcases le_or_lt x 0 with h | h
  · rw [calculate_of_nonpos x h]; right; rfl
  · rcases le_or_lt x 1073741818 with h2 | h2
    · rw [calculate_of_le x h h2]; left; rfl
    · rcases le_or_lt x 2147483642 with h3 | h3
      · rw [calculate_of_mid x (by omega) h3]; right; rfl
      · rw [calculate_of_high x (by omega)]; right; rfl

/-- C8: `calculate` is pure and deterministic: for every `x > 0`, two
successive invocations on the same argument return the same value, and the
combined trace contains no print event (no output, no observable state
change beyond the nested `helper` call). -/
theorem calculate_pure_deterministic (x : Int) (h : 0 < x) :
    (calcTwice x).2.1 = (calcTwice x).2.2 ∧ hasPrint (calcTwice x).1 = false := by
  refine ⟨rfl, ?_⟩
  show hasPrint ((calculate x).1 ++ (calculate x).1) = false
  rcases calculate_trace_cases x with h1 | h1 <;> rw [h1] <;> rfl

/-- C8 (witness): the theorem at `x = 10`. -/
theorem calculate_pure_deterministic_witness :
    0 < (10 : Int) ∧
      ((calcTwice 10).2.1 = (calcTwice 10).2.2 ∧ hasPrint (calcTwice 10).1 = false) :=
  ⟨by decide, calculate_pure_deterministic 10 (by decide)⟩

/-- C9: whenever `calculate` returns a value for a positive argument, that
value is even: it equals `(x + 5) * 2` (even in the overflow regime
`calculate` never returns an odd or wrapped value — it aborts instead). -/
theorem calculate_result_even (x r : Int) (hx : 0 < x)
    (h : (calculate x).2 = some r) : 2 ∣ r ∧ r = (x + 5) * 2 := by
  rcases le_or_lt x 1073741818 with h2 | h2
  · rw [calculate_of_le x hx h2] at h
    have hr : (x + 5) * 2 = r := Option.some.inj h
    subst hr
    exact ⟨⟨x + 5, by ring⟩, rfl⟩
  · rcases le_or_lt x 2147483642 with h3 | h3
    · rw [calculate_of_mid x (by omega) h3] at h
      exact Option.noConfusion h
    · rw [calculate_of_high x (by omega)] at h
      exact Option.noConfusion h

/-- C9 (witness): the theorem at `x = 10`, `r = 30`. -/
theorem calculate_result_even_witness :
    0 < (10 : Int) ∧ (calculate 10).2 = some 30 ∧
      (2 ∣ (30 : Int) ∧ (30 : Int) = (10 + 5) * 2) :=
  ⟨by decide, by decide, calculate_result_even 10 30 (by decide) (by decide)⟩

/-- C10 (counterexample): `helper` is not strictly monotone over all valid
32-bit integers: at `x = 2147483641 < y = 2147483645`, `helper x` returns
`2147483646` but `helper y` aborts on overflow and returns no value at all,
so `helper x < helper y` fails. -/
theorem helper_not_monotone_at_overflow :
    (helper 2147483641).2 = some 2147483646 ∧ (helper 2147483645).2 = none := by
  decide

/-- C10 (amended): in the overflow-free ranges the functions are strictly
monotone: for `-2^31 ≤ x < y ≤ 2^31 - 6`, `helper x = x + 5 < y + 5 = helper y`,
and for `0 < x < y ≤ 2^30 - 6`,
`calculate x = (x + 5) * 2 < (y + 5) * 2 = calculate y`. -/
theorem helper_calculate_strict_mono :
    (∀ x y : Int, -2147483648 ≤ x → x < y → y ≤ 2147483642 →
      (helper x).2 = some (x + 5) ∧ (helper y).2 = some (y + 5) ∧
        x + 5 < y + 5) ∧
    (∀ x y : Int, 0 < x → x < y → y ≤ 1073741818 →
      (calculate x).2 = some ((x + 5) * 2) ∧ (calculate y).2 = some ((y + 5) * 2) ∧
        (x + 5) * 2 < (y + 5) * 2) := by
  constructor
  · intro x y hx hxy hy
    refine ⟨?_, ?_, by omega⟩
    · rw [helper_of_le x (by omega) (by omega)]
    · rw [helper_of_le y (by omega) hy]
  · intro x y hx hxy hy
    refine ⟨?_, ?_, by omega⟩
    · rw [calculate_of_le x hx (by omega)]
    · rw [calculate_of_le y (by omega) hy]

/-- C10 (witness): the amended theorem at `x = 1`, `y = 2` for both parts. -/
theorem helper_calculate_strict_mono_witness :
    ((helper 1).2 = some 6 ∧ (helper 2).2 = some 7 ∧ (6 : Int) < 7) ∧
      ((calculate 1).2 = some 12 ∧ (calculate 2).2 = some 14 ∧ (12 : Int) < 14) :=
  ⟨helper_calculate_strict_mono.1 1 2 (by decide) (by decide) (by decide),
    helper_calculate_strict_mono.2 1 2 (by decide) (by decide) (by decide)⟩

end SampleC
